import Mathlib

/-!
Shallow embedding of `src/player/ImagePlayer.cpp` (the `ImagePlayer` screen of
the Magnum player application).  Floating-point `Float` values of the source
are modelled as exact rationals; the Magnum math primitives used by the file
(`Vector2`, `Vector2i`, `Matrix3` with `translation`, `scaling`, `projection`,
`transformPoint` and matrix product) are embedded directly.  Event handlers
become pure functions from the player state (and an oracle for the host UI
plane, whose internals live in the external engine) to a new state together
with the accepted flag of the event.
-/

/-- Embedding of Magnum `Vector2` (componentwise arithmetic). -/
@[ext] structure Vector2 where
  x : ℚ
  y : ℚ
deriving DecidableEq

instance : Add Vector2 where
  add a b := ⟨a.x + b.x, a.y + b.y⟩

instance : Sub Vector2 where
  sub a b := ⟨a.x - b.x, a.y - b.y⟩

instance : Mul Vector2 where
  mul a b := ⟨a.x * b.x, a.y * b.y⟩

instance : Div Vector2 where
  div a b := ⟨a.x / b.x, a.y / b.y⟩

instance : Neg Vector2 where
  neg a := ⟨-a.x, -a.y⟩

instance : HDiv Vector2 ℚ Vector2 where
  hDiv a s := ⟨a.x / s, a.y / s⟩

/-- Embedding of `Vector2::yScale(s)`: the vector `(1, s)`. -/
def Vector2.yScale (s : ℚ) : Vector2 := ⟨1, s⟩

/-- Embedding of Magnum `Vector2i` (integer pixel coordinates). -/
structure Vector2i where
  x : ℤ
  y : ℤ
deriving DecidableEq

/-- Conversion `Vector2{Vector2i}` used throughout the source. -/
def Vector2i.toVec2 (v : Vector2i) : Vector2 := ⟨(v.x : ℚ), (v.y : ℚ)⟩

/-- Embedding of Magnum `Matrix3`, row-major entries. -/
structure Matrix3 where
  m00 : ℚ
  m01 : ℚ
  m02 : ℚ
  m10 : ℚ
  m11 : ℚ
  m12 : ℚ
  m20 : ℚ
  m21 : ℚ
  m22 : ℚ
deriving DecidableEq

/-- Matrix product of two `Matrix3`. -/
def Matrix3.mul (a b : Matrix3) : Matrix3 where
  m00 := a.m00 * b.m00 + a.m01 * b.m10 + a.m02 * b.m20
  m01 := a.m00 * b.m01 + a.m01 * b.m11 + a.m02 * b.m21
  m02 := a.m00 * b.m02 + a.m01 * b.m12 + a.m02 * b.m22
  m10 := a.m10 * b.m00 + a.m11 * b.m10 + a.m12 * b.m20
  m11 := a.m10 * b.m01 + a.m11 * b.m11 + a.m12 * b.m21
  m12 := a.m10 * b.m02 + a.m11 * b.m12 + a.m12 * b.m22
  m20 := a.m20 * b.m00 + a.m21 * b.m10 + a.m22 * b.m20
  m21 := a.m20 * b.m01 + a.m21 * b.m11 + a.m22 * b.m21
  m22 := a.m20 * b.m02 + a.m21 * b.m12 + a.m22 * b.m22

instance : Mul Matrix3 where
  mul := Matrix3.mul

/-- Embedding of `Matrix3{}` (default construction is the identity matrix). -/
def Matrix3.identity : Matrix3 := ⟨1, 0, 0, 0, 1, 0, 0, 0, 1⟩

/-- Embedding of `Matrix3::translation(v)`. -/
def Matrix3.translation (v : Vector2) : Matrix3 := ⟨1, 0, v.x, 0, 1, v.y, 0, 0, 1⟩

/-- Embedding of `Matrix3::scaling(v)`. -/
def Matrix3.scaling (v : Vector2) : Matrix3 := ⟨v.x, 0, 0, 0, v.y, 0, 0, 0, 1⟩

/-- Embedding of `Matrix3::projection(size)`, which is `scaling(2/size)`. -/
def Matrix3.projection (size : Vector2) : Matrix3 :=
  Matrix3.scaling ⟨2 / size.x, 2 / size.y⟩

/-- Embedding of `Matrix3::transformPoint(v)`: the xy part of `M * (v, 1)`. -/
def Matrix3.transformPoint (m : Matrix3) (v : Vector2) : Vector2 :=
  ⟨m.m00 * v.x + m.m01 * v.y + m.m02, m.m10 * v.x + m.m11 * v.y + m.m12⟩

/-- Embedding of `GL::SamplerFilter` values used by the file. -/
inductive SamplerFilter where
  | Nearest
  | Linear
deriving DecidableEq

/-- Embedding of `GL::SamplerWrapping` values used by the file. -/
inductive SamplerWrapping where
  | ClampToEdge
  | Repeat
deriving DecidableEq

/-- Embedding of `GL::TextureFormat` values used by the file. -/
inductive TextureFormat where
  | RGBA8
  | RGB8
deriving DecidableEq

/-- Embedding of `PixelFormat` (a representative subset of the Magnum enum). -/
inductive PixelFormat where
  | RGBA8Unorm
  | RGB8Unorm
  | RG8Unorm
  | R8Unorm
  | RGBA8Srgb
deriving DecidableEq

/-- Textual form produced by streaming a `PixelFormat` into a `Debug` sink. -/
def pixelFormatDebug : PixelFormat → String
  | PixelFormat.RGBA8Unorm => "PixelFormat::RGBA8Unorm"
  | PixelFormat.RGB8Unorm => "PixelFormat::RGB8Unorm"
  | PixelFormat.RG8Unorm => "PixelFormat::RG8Unorm"
  | PixelFormat.R8Unorm => "PixelFormat::R8Unorm"
  | PixelFormat.RGBA8Srgb => "PixelFormat::RGBA8Srgb"

/-- Embedding of a decoded `Trade::ImageData2D`: its size and pixel format. -/
structure ImageData2D where
  size : Vector2i
  format : PixelFormat
deriving DecidableEq

/-- Embedding of the observable configuration of the `GL::Texture2D` after the
setter chain in `ImagePlayer::load`. -/
structure Texture2D where
  magnificationFilter : SamplerFilter
  minificationFilter : SamplerFilter
  wrapping : SamplerWrapping
  storageLevels : ℕ
  storageFormat : TextureFormat
  storageSize : Vector2i
  subImage : ImageData2D
deriving DecidableEq

/-- Embedding of `KeyEvent::Key`: the numpad-zero key the handler tests for,
and an arbitrary code for every other key of the enum. -/
inductive Key where
  | NumZero
  | Other (code : ℕ)
deriving DecidableEq

/-- Window and framebuffer sizes obtained from `application()` by the
`unproject` helpers. -/
structure App where
  windowSize : Vector2i
  framebufferSize : Vector2i
deriving DecidableEq

/-- Observable state of an `ImagePlayer` instance: the stored image info
string, the overlay label (text and visibility), controls-visible flag from
the abstract-player base, the texture (`none` for `NoCreate`), image size and
the two matrices.  `uiPlaneGeneration` counts how many times the UI plane was
constructed by `initializeUi`, to observe its recreation. -/
structure PlayerState where
  imageInfo : String
  labelText : String
  labelVisible : Bool
  controlsVisible : Bool
  texture : Option Texture2D
  imageSize : Vector2i
  transformation : Matrix3
  projection : Matrix3
  uiPlaneGeneration : ℕ
deriving DecidableEq

/-- Embedding of the `ImagePlayer` constructor: identity transformation,
projection equal to the framebuffer size, no texture, zero image size, and the
UI plane constructed once with an empty visible label. -/
def ImagePlayerInit (app : App) : PlayerState where
  imageInfo := ""
  labelText := ""
  labelVisible := true
  controlsVisible := true
  texture := none
  imageSize := ⟨0, 0⟩
  transformation := Matrix3.identity
  projection := Matrix3.projection app.framebufferSize.toVec2
  uiPlaneGeneration := 1

/-- Embedding of `ImagePlayer::unproject`. -/
def unproject (app : App) (windowPosition : Vector2i) : Vector2 :=
  (windowPosition.toVec2 / app.windowSize.toVec2 - ⟨0.5, 0.5⟩) *
    app.framebufferSize.toVec2 * Vector2.yScale (-1)

/-- Embedding of `ImagePlayer::unprojectRelative`. -/
def unprojectRelative (app : App) (relativeWindowPosition : Vector2i) : Vector2 :=
  relativeWindowPosition.toVec2 * app.framebufferSize.toVec2 *
    Vector2.yScale (-1) / app.windowSize.toVec2

/-- Embedding of `ImagePlayer::keyPressEvent`; returns the new state and
whether the event was accepted. -/
def keyPressEvent (st : PlayerState) (key : Key) : PlayerState × Bool :=
  if key = Key.NumZero then
    ({ st with transformation := Matrix3.scaling (st.imageSize.toVec2 / (2 : ℚ)) }, true)
  else (st, false)

/-- Embedding of `ImagePlayer::mousePressEvent`.  Whether the owned UI plane
handles the event at the given position is host-engine behaviour, passed in as
the oracle `uiHandled`. -/
def mousePressEvent (st : PlayerState) (position : Vector2i) (uiHandled : Bool) :
    PlayerState × Bool :=
  if uiHandled then (st, true) else (st, false)

/-- Embedding of `ImagePlayer::mouseReleaseEvent`, with the same UI oracle. -/
def mouseReleaseEvent (st : PlayerState) (position : Vector2i) (uiHandled : Bool) :
    PlayerState × Bool :=
  if uiHandled then (st, true) else (st, false)

/-- Embedding of `ImagePlayer::mouseMoveEvent`: the position is forwarded to
the UI plane first (oracle `uiHandled`); otherwise a left-button drag pans by
the unprojected relative motion. -/
def mouseMoveEvent (app : App) (st : PlayerState) (position relativePosition : Vector2i)
    (leftButtonHeld : Bool) (uiHandled : Bool) : PlayerState × Bool :=
  if uiHandled then (st, true)
  else if leftButtonHeld = false then (st, false)
  else
    ({ st with transformation :=
        Matrix3.translation (unprojectRelative app relativePosition) * st.transformation },
      true)

/-- Embedding of `ImagePlayer::mouseScrollEvent`: zoom about the unprojected
cursor position when the vertical scroll offset is nonzero. -/
def mouseScrollEvent (app : App) (st : PlayerState) (position : Vector2i)
    (offset : Vector2) : PlayerState × Bool :=
  if offset.y = 0 then (st, false)
  else
    ({ st with transformation :=
        Matrix3.translation (unproject app position) *
        Matrix3.scaling ⟨1 + 0.1 * offset.y, 1 + 0.1 * offset.y⟩ *
        Matrix3.translation (-(unproject app position)) *
        st.transformation },
      true)

/-- Embedding of `Utility::Directory::filename`: the path component after the
last slash. -/
def Directory.filename (path : String) : String :=
  (path.splitOn "/").getLastD path

/-- The string built by `ImagePlayer::load` for the overlay label, matching
the format string with the filename component truncated to 32 characters. -/
def imageInfoText (filename : String) (image : ImageData2D) : String :=
  (Directory.filename filename).take 32 ++ ": " ++
    toString image.size.x ++ "x" ++ toString image.size.y ++ ", " ++
    pixelFormatDebug image.format

/-- Embedding of `ImagePlayer::load`.  The importer call `importer.image2D(0)`
is host-engine behaviour, passed in as the `importedImage` optional. -/
def load (st : PlayerState) (filename : String) (importedImage : Option ImageData2D) :
    PlayerState :=
  match importedImage with
  | none => st
  | some image =>
    let infoText := imageInfoText filename image
    { st with
      texture := some
        { magnificationFilter := SamplerFilter.Nearest
          minificationFilter := SamplerFilter.Linear
          wrapping := SamplerWrapping.ClampToEdge
          storageLevels := 1
          storageFormat := TextureFormat.RGBA8
          storageSize := image.size
          subImage := image }
      imageSize := image.size
      transformation :=
        if st.transformation = Matrix3.identity then
          Matrix3.scaling (image.size.toVec2 / (2 : ℚ))
        else st.transformation
      imageInfo := infoText
      labelText := infoText }

/-- Embedding of `ImagePlayer::setControlsVisible`: sets the visibility of the
image-info label. -/
def setControlsVisible (st : PlayerState) (visible : Bool) : PlayerState :=
  { st with labelVisible := visible }

/-- Embedding of `ImagePlayer::initializeUi`: constructs a fresh UI plane
whose label has empty text and default visibility. -/
def initializeUi (st : PlayerState) : PlayerState :=
  { st with
    uiPlaneGeneration := st.uiPlaneGeneration + 1
    labelText := ""
    labelVisible := true }

/-- Sizes carried by a `ViewportEvent`. -/
structure ViewportEventData where
  windowSize : Vector2i
  framebufferSize : Vector2i
deriving DecidableEq

/-- Embedding of `ImagePlayer::viewportEvent`: drops and recreates the UI
plane, restores controls visibility and the label text, and recomputes the
projection from the new framebuffer size. -/
def viewportEvent (st : PlayerState) (event : ViewportEventData) : PlayerState :=
  let st1 := initializeUi st
  let st2 := setControlsVisible st1 st1.controlsVisible
  let st3 := { st2 with labelText := st2.imageInfo }
  { st3 with projection := Matrix3.projection event.framebufferSize.toVec2 }

/-- Embedding of `GL::Renderer::BlendFunction` values used by the file. -/
inductive BlendFunction where
  | One
  | Zero
  | OneMinusSourceAlpha
deriving DecidableEq

/-- The GL commands issued by `ImagePlayer::drawEvent`, in order. -/
inductive RenderCommand where
  | clear
  | drawSquare (transformationProjection : Matrix3)
  | disableDepthTest
  | enableDepthTest
  | enableBlending
  | disableBlending
  | setBlendFunction (src dst : BlendFunction)
  | drawUi
deriving DecidableEq

/-- Whether a render command is the textured-square draw call. -/
def RenderCommand.isDrawSquare : RenderCommand → Bool
  | RenderCommand.drawSquare _ => true
  | _ => false

/-- Embedding of `ImagePlayer::drawEvent` as the ordered list of GL commands
it issues. -/
def drawEvent (st : PlayerState) : List RenderCommand :=
  [ RenderCommand.clear,
    RenderCommand.drawSquare (st.projection * st.transformation),
    RenderCommand.disableDepthTest,
    RenderCommand.enableBlending,
    RenderCommand.setBlendFunction BlendFunction.One BlendFunction.OneMinusSourceAlpha,
    RenderCommand.drawUi,
    RenderCommand.setBlendFunction BlendFunction.One BlendFunction.Zero,
    RenderCommand.disableBlending,
    RenderCommand.enableDepthTest ]

/-- Observable GL renderer state toggled by the commands of `drawEvent`. -/
structure RendererState where
  depthTest : Bool
  blending : Bool
  blendSrc : BlendFunction
  blendDst : BlendFunction
deriving DecidableEq

/-- Effect of one render command on the renderer state. -/
def applyCommand (rs : RendererState) : RenderCommand → RendererState
  | RenderCommand.disableDepthTest => { rs with depthTest := false }
  | RenderCommand.enableDepthTest => { rs with depthTest := true }
  | RenderCommand.enableBlending => { rs with blending := true }
  | RenderCommand.disableBlending => { rs with blending := false }
  | RenderCommand.setBlendFunction s d => { rs with blendSrc := s, blendDst := d }
  | _ => rs

/-- Run a list of render commands over the renderer state. -/
def runCommands (rs : RendererState) : List RenderCommand → RendererState
  | [] => rs
  | c :: rest => runCommands (applyCommand rs c) rest

/-- The commands issued strictly before the first occurrence of `target`. -/
def commandsBefore (target : RenderCommand) (cmds : List RenderCommand) :
    List RenderCommand :=
  cmds.takeWhile (fun c => decide (c ≠ target))

/-- Sample application sizes for concrete witnesses. -/
def sampleApp : App := ⟨⟨800, 600⟩, ⟨1600, 1200⟩⟩

/-- Sample freshly constructed player state. -/
def sampleState : PlayerState := ImagePlayerInit sampleApp

/-- Sample state whose view was already panned away from the identity. -/
def pannedState : PlayerState :=
  { sampleState with transformation := Matrix3.translation ⟨3, 4⟩ }

/-- Sample decoded image. -/
def sampleImage : ImageData2D := ⟨⟨64, 48⟩, PixelFormat.RGBA8Unorm⟩

/-- Unfolding lemma for the `Matrix3` product instance. -/
theorem Matrix3.mul_unfold (a b : Matrix3) : a * b = Matrix3.mul a b := rfl

/-- Unfolding lemma for `Vector2` negation. -/
theorem Vector2.neg_unfold (a : Vector2) : -a = ⟨-a.x, -a.y⟩ := rfl

/-- Unfolding lemma for componentwise `Vector2` product. -/
theorem Vector2.mul_comp_unfold (a b : Vector2) : a * b = ⟨a.x * b.x, a.y * b.y⟩ := rfl

/-- Unfolding lemma for componentwise `Vector2` division. -/
theorem Vector2.div_comp_unfold (a b : Vector2) : a / b = ⟨a.x / b.x, a.y / b.y⟩ := rfl

/-- Unfolding lemma for componentwise `Vector2` subtraction. -/
theorem Vector2.sub_comp_unfold (a b : Vector2) : a - b = ⟨a.x - b.x, a.y - b.y⟩ := rfl

/-- The zoom matrix built in `mouseScrollEvent` fixes the zoom centre. -/
theorem zoom_matrix_fixes_centre (p : Vector2) (s : ℚ) :
    Matrix3.transformPoint
      (Matrix3.translation p * Matrix3.scaling ⟨s, s⟩ * Matrix3.translation (-p)) p = p := by
  ext <;>
    simp [Matrix3.mul_unfold, Matrix3.mul, Matrix3.translation, Matrix3.scaling,
      Matrix3.transformPoint, Vector2.neg_unfold] <;>
    ring

/-- Claim C1: a scroll event with nonzero vertical offset dy replaces the view
transformation T by translation(p) * scaling(1 + 0.1 dy) * translation(-p) * T
with p the unprojected event position and accepts the event; the composed zoom
matrix fixes p; and a scroll event with zero vertical offset leaves the state
unchanged and the event unaccepted. -/
theorem scroll_zoom_about_cursor (app : App) (st : PlayerState)
    (position : Vector2i) (offset : Vector2) :
    (offset.y ≠ 0 →
      mouseScrollEvent app st position offset =
        ({ st with transformation :=
            Matrix3.translation (unproject app position) *
            Matrix3.scaling ⟨1 + 0.1 * offset.y, 1 + 0.1 * offset.y⟩ *
            Matrix3.translation (-(unproject app position)) *
            st.transformation }, true) ∧
      Matrix3.transformPoint
        (Matrix3.translation (unproject app position) *
          Matrix3.scaling ⟨1 + 0.1 * offset.y, 1 + 0.1 * offset.y⟩ *
          Matrix3.translation (-(unproject app position)))
        (unproject app position) = unproject app position) ∧
    (offset.y = 0 → mouseScrollEvent app st position offset = (st, false)) := by
  constructor
  · intro h
    exact ⟨by simp [mouseScrollEvent, h], zoom_matrix_fixes_centre _ _⟩
  · intro h
    simp [mouseScrollEvent, h]

/-- Witness for C1 at concrete sizes, state, position and offset (0, 1). -/
theorem scroll_zoom_about_cursor_witness :
    mouseScrollEvent sampleApp sampleState ⟨100, 100⟩ ⟨0, 1⟩ =
      ({ sampleState with transformation :=
                            Matrix3.translation (unproject sampleApp ⟨100, 100⟩) *
                              Matrix3.scaling ⟨1 + 0.1 * 1, 1 + 0.1 * 1⟩ *
                              Matrix3.translation (-(unproject sampleApp ⟨100, 100⟩)) *
                              sampleState.transformation }, true) ∧
    Matrix3.transformPoint
      (Matrix3.translation (unproject sampleApp ⟨100, 100⟩) *
        Matrix3.scaling ⟨1 + 0.1 * 1, 1 + 0.1 * 1⟩ *
        Matrix3.translation (-(unproject sampleApp ⟨100, 100⟩)))
      (unproject sampleApp ⟨100, 100⟩) = unproject sampleApp ⟨100, 100⟩ :=
  (scroll_zoom_about_cursor sampleApp sampleState ⟨100, 100⟩ ⟨0, 1⟩).1 (by decide)

/-- Claim C2: a mouse move with the left button held that the UI does not
handle replaces T by translation(d) * T with d the unprojected relative
motion, which equals the relative motion scaled componentwise by
framebufferSize/windowSize with the Y component negated; a move without the
left button (not handled by the UI) leaves the state unchanged and the event
unaccepted. -/
theorem move_pan_left_drag (app : App) (st : PlayerState)
    (position relativePosition : Vector2i) :
    mouseMoveEvent app st position relativePosition true false =
      ({ st with transformation :=
          Matrix3.translation (unprojectRelative app relativePosition) *
          st.transformation }, true) ∧
    unprojectRelative app relativePosition =
      ⟨relativePosition.toVec2.x * app.framebufferSize.toVec2.x /
          app.windowSize.toVec2.x,
        -(relativePosition.toVec2.y * app.framebufferSize.toVec2.y /
          app.windowSize.toVec2.y)⟩ ∧
    mouseMoveEvent app st position relativePosition false false = (st, false) := by
  refine ⟨rfl, ?_, rfl⟩
  unfold unprojectRelative
  ext <;>
    simp [Vector2.mul_comp_unfold, Vector2.div_comp_unfold, Vector2.yScale] <;>
    ring

/-- Claim C3: pressing numpad zero sets the transformation to
scaling(imageSize / 2) and accepts the event, for every prior state; any other
key leaves the state unchanged and the event unaccepted. -/
theorem numzero_resets_view (st : PlayerState) (key : Key) :
    (key = Key.NumZero →
      keyPressEvent st key =
        ({ st with transformation :=
            Matrix3.scaling (st.imageSize.toVec2 / (2 : ℚ)) }, true)) ∧
    (key ≠ Key.NumZero → keyPressEvent st key = (st, false)) := by
  constructor <;> intro h <;> simp [keyPressEvent, h]

/-- Witness for C3 on the freshly constructed state (imageSize = (0, 0)). -/
theorem numzero_resets_view_witness :
    keyPressEvent sampleState Key.NumZero =
      ({ sampleState with transformation :=
                            Matrix3.scaling (sampleState.imageSize.toVec2 / (2 : ℚ)) }, true) ∧
    keyPressEvent sampleState (Key.Other 3) = (sampleState, false) :=
  ⟨(numzero_resets_view sampleState Key.NumZero).1 rfl,
    (numzero_resets_view sampleState (Key.Other 3)).2 (by decide)⟩

/-- Claim C4: after a successful load the overlay label text is the filename
component of the path truncated to 32 characters, a colon, WxH, a comma and
the textual pixel format. -/
theorem load_sets_overlay_label (st : PlayerState) (filename : String)
    (image : ImageData2D) :
    (load st filename (some image)).labelText =
      ((filename.splitOn "/").getLastD filename).take 32 ++ ": " ++
      toString image.size.x ++ "x" ++ toString image.size.y ++ ", " ++
      pixelFormatDebug image.format := rfl

/-- Claim C5: press, release and move events are forwarded to the owned UI
plane, and whenever the UI handles one, the event is accepted and the whole
player state (in particular the transformation and projection matrices) is
unchanged. -/
theorem ui_handled_events_consume (app : App) (st : PlayerState)
    (position relativePosition : Vector2i) (leftButtonHeld : Bool) :
    mousePressEvent st position true = (st, true) ∧
    mouseReleaseEvent st position true = (st, true) ∧
    mouseMoveEvent app st position relativePosition leftButtonHeld true = (st, true) :=
  ⟨rfl, rfl, rfl⟩

/-- Claim C6: a successful load creates a texture with nearest magnification,
linear minification, clamp-to-edge wrapping and single-level RGBA8 storage of
the image size containing the image, and the stored image size equals the
image size. -/
theorem load_uploads_texture (st : PlayerState) (filename : String)
    (image : ImageData2D) :
    (load st filename (some image)).texture = some
      { magnificationFilter := SamplerFilter.Nearest
        minificationFilter := SamplerFilter.Linear
        wrapping := SamplerWrapping.ClampToEdge
        storageLevels := 1
        storageFormat := TextureFormat.RGBA8
        storageSize := image.size
        subImage := image } ∧
    (load st filename (some image)).imageSize = image.size :=
  ⟨rfl, rfl⟩

/-- Claim C7: every drawEvent starts by clearing the framebuffer, draws the
textured square exactly once with matrix projection * transformation, reaches
the UI draw with depth test disabled and premultiplied-alpha blending enabled
(One, OneMinusSourceAlpha), and afterwards restores the renderer: blend
function (One, Zero), blending disabled, depth test enabled. -/
theorem draw_event_gl_sequence (st : PlayerState) (rs : RendererState) :
    (drawEvent st).head? = some RenderCommand.clear ∧
    (drawEvent st).countP RenderCommand.isDrawSquare = 1 ∧
    RenderCommand.drawSquare (st.projection * st.transformation) ∈ drawEvent st ∧
    RenderCommand.drawUi ∈ drawEvent st ∧
    runCommands rs (commandsBefore RenderCommand.drawUi (drawEvent st)) =
      ⟨false, true, BlendFunction.One, BlendFunction.OneMinusSourceAlpha⟩ ∧
    runCommands rs (drawEvent st) =
      ⟨true, false, BlendFunction.One, BlendFunction.Zero⟩ := by
  refine ⟨rfl, rfl, ?_, ?_, rfl, rfl⟩
  · simp [drawEvent]
  · simp [drawEvent]

/-- Claim C8: when the importer yields no image, load returns the state
completely unchanged. -/
theorem load_failure_is_noop (st : PlayerState) (filename : String) :
    load st filename none = st := rfl

/-- Claim C9: load applies the default centred view scaling(imageSize / 2)
exactly when the current transformation is the identity; otherwise the
transformation is left unchanged. -/
theorem load_default_view_only_if_identity (st : PlayerState) (filename : String)
    (image : ImageData2D) :
    (st.transformation = Matrix3.identity →
      (load st filename (some image)).transformation =
        Matrix3.scaling (image.size.toVec2 / (2 : ℚ))) ∧
    (st.transformation ≠ Matrix3.identity →
      (load st filename (some image)).transformation = st.transformation) := by
  constructor <;> intro h <;> simp [load, h]

/-- Witness for C9 on a fresh state (identity view) and a panned state. -/
theorem load_default_view_only_if_identity_witness :
    (load sampleState "dir/img.png" (some sampleImage)).transformation =
      Matrix3.scaling (sampleImage.size.toVec2 / (2 : ℚ)) ∧
    (load pannedState "dir/img.png" (some sampleImage)).transformation =
      pannedState.transformation :=
  ⟨(load_default_view_only_if_identity sampleState "dir/img.png" sampleImage).1 rfl,
    (load_default_view_only_if_identity pannedState "dir/img.png" sampleImage).2 (by decide)⟩

/-- Claim C10: a viewport event recreates the UI plane, restores the label
text to the stored image-info string (empty in the initial state), preserves
the controls-visible flag (reapplying it to the label), recomputes the
projection from the new framebuffer size and leaves the pan/zoom
transformation unchanged. -/
theorem viewport_event_rebuilds_ui (st : PlayerState) (event : ViewportEventData) :
    (viewportEvent st event).uiPlaneGeneration = st.uiPlaneGeneration + 1 ∧
    (viewportEvent st event).labelText = st.imageInfo ∧
    (viewportEvent st event).controlsVisible = st.controlsVisible ∧
    (viewportEvent st event).labelVisible = st.controlsVisible ∧
    (viewportEvent st event).projection =
      Matrix3.projection event.framebufferSize.toVec2 ∧
    (viewportEvent st event).transformation = st.transformation ∧
    (∀ app : App, (ImagePlayerInit app).imageInfo = "") :=
  ⟨rfl, rfl, rfl, rfl, rfl, rfl, fun _ => rfl⟩
